import Mathlib

/-!
Verification of the Reflect builtin dispatcher
(`ecma_builtin_reflect_dispatch_routine` in
`jerry-core/ecma/builtin-objects/ecma-builtin-reflect.c`).

The dispatcher is embedded shallowly: engine values become an inductive
`Value`, the external collaborators (object-model facade, property-key
coercion, array-like materializer) become a record of functions `Facade`,
and the dispatcher itself becomes `dispatch`, which returns the resulting
value-or-error together with a trace of the delegate calls and resource
events (key handle acquire/release, argument-buffer alloc/free,
pending-exception release) it performed, in order.
-/

namespace Reflect

/-- The thirteen routine identifiers, in the order of the C enum
(`ECMA_REFLECT_OBJECT_GET` .. `ECMA_REFLECT_OBJECT_PREVENT_EXTENSIONS`). -/
inductive ReflectOp where
  | get
  | set
  | has
  | deleteProperty
  | construct
  | ownKeys
  | getPrototypeOf
  | setPrototypeOf
  | apply
  | defineProperty
  | getOwnPropertyDescriptor
  | isExtensible
  | preventExtensions
deriving DecidableEq

/-- Numeric routine id, offset from `ECMA_REFLECT_OBJECT_ROUTINE_START + 1`;
the relative order is exactly that of the C enum, which is all the
dispatcher's comparisons depend on. -/
def routineId : ReflectOp → Nat
  | .get => 0
  | .set => 1
  | .has => 2
  | .deleteProperty => 3
  | .construct => 4
  | .ownKeys => 5
  | .getPrototypeOf => 6
  | .setPrototypeOf => 7
  | .apply => 8
  | .defineProperty => 9
  | .getOwnPropertyDescriptor => 10
  | .isExtensible => 11
  | .preventExtensions => 12

/-- String-or-symbol own-key identity, used to state the ordering contract of
`OwnPropertyKeys`. -/
inductive KeyKind where
  | str (s : Nat)
  | sym (s : Nat)
deriving DecidableEq

def KeyKind.isStr : KeyKind → Bool
  | .str _ => true
  | .sym _ => false

def KeyKind.isSym : KeyKind → Bool
  | .str _ => false
  | .sym _ => true

/-- Engine values (`ecma_value_t` success values). `keysArray` stands for the
key array produced by `ecma_builtin_helper_object_get_properties`. -/
inductive Value where
  | undefined
  | null
  | boolean (b : Bool)
  | number (n : Int)
  | string (s : Nat)
  | symbol (s : Nat)
  | object (id : Nat)
  | keysArray (ks : List KeyKind)
deriving DecidableEq

/-- `ecma_is_value_object`. -/
def Value.isObject : Value → Bool
  | .object _ => true
  | _ => false

/-- The TypeError messages the dispatcher itself raises (the
`ECMA_ERR_MSG` literals in the source, as abstract tags). -/
inductive ErrMsg where
  | argumentIsNotAnObject
  | targetIsNotAConstructor
  | constructSecondArgument
  | argumentThisIsNotAFunction
deriving DecidableEq

/-- An error signal: either a TypeError raised by the dispatcher itself
(`ecma_raise_type_error`) or a pending exception produced by a delegate /
coercion / materialization call (`ECMA_VALUE_ERROR` with the ambient
exception state, modelled by an opaque tag). -/
inductive Err where
  | typeError (msg : ErrMsg)
  | pending (tag : Nat)
deriving DecidableEq

/-- The dispatcher result: an `ecma_value_t` that is either a success value
or an error signal. -/
inductive RRes where
  | ok (v : Value)
  | error (e : Err)
deriving DecidableEq

/-- Result of `ecma_op_to_prop_name`: a reference-counted key handle
(identified by a `Nat`) or a coercion failure (NULL plus pending
exception). -/
inductive KeyRes where
  | ok (k : Nat)
  | error (e : Err)
deriving DecidableEq

/-- Result of `ecma_op_create_list_from_array_like`: an owned argument
buffer or a materialization failure (NULL plus pending exception). -/
inductive ListRes where
  | ok (vs : List Value)
  | error (e : Err)
deriving DecidableEq

/-- One delegate call into the Object Model Facade, with the exact
arguments passed. -/
inductive DelegateCall where
  | getWithReceiver (t : Value) (k : Nat) (r : Value)
  | hasProperty (t : Value) (k : Nat)
  | deleteProp (t : Value) (k : Nat)
  | putWithReceiver (t : Value) (k : Nat) (v r : Value)
  | ownPropertyKeys (t : Value) (symbols : Bool)
  | getPrototypeOf (t : Value)
  | setPrototypeOf (t p : Value)
  | applyFn (fn thisArg argsArr : Value)
  | defineProperty (t : Value) (k : Nat) (d : Value)
  | getOwnPropertyDescriptor (t : Value) (k : Nat)
  | isExtensible (t : Value)
  | preventExtensions (t : Value)
  | construct (t nt : Value) (buf : List Value)
deriving DecidableEq

/-- Observable events of one dispatch call, in program order: calls to the
property-key coercion and the array-like materializer, acquisition and
release of the key handle and the argument buffer, release of a pending
exception (`jcontext_release_exception`), and delegate calls. -/
inductive Event where
  | coerceKey (v : Value)
  | keyAcquired (k : Nat)
  | keyReleased (k : Nat)
  | materialize (v : Value)
  | bufferAlloc (vs : List Value)
  | bufferFree (vs : List Value)
  | exceptionReleased
  | delegate (c : DelegateCall)
deriving DecidableEq

/-- The external collaborators consumed by the dispatcher (spec section 6):
pure shape predicates, the property-key coercion, the array-like
materializer, and the object-model facade operations. Each is an arbitrary
function; the dispatcher's behavior is proved for every facade. -/
structure Facade where
  isConstructor : Value → Bool
  isCallable : Value → Bool
  toPropName : Value → KeyRes
  getWithReceiver : Value → Nat → Value → RRes
  hasProperty : Value → Nat → RRes
  deleteProp : Value → Nat → RRes
  putWithReceiver : Value → Nat → Value → Value → RRes
  getProperties : Value → Bool → RRes
  getPrototypeOf : Value → RRes
  setPrototypeOf : Value → Value → RRes
  applyFn : Value → Value → Value → RRes
  defineProperty : Value → Nat → Value → RRes
  getOwnPropertyDescriptor : Value → Nat → RRes
  isExtensible : Value → RRes
  preventExtensions : Value → RRes
  createListFromArrayLike : Value → ListRes
  construct : Value → Value → List Value → RRes

/-- `arguments_list[i]`: the builtin-routine template pads the argument
list with undefined beyond the caller-supplied values, so an index past
the end reads as the absent/undefined value. -/
def arg (args : List Value) (i : Nat) : Value :=
  args.getD i Value.undefined

/-- A call is well-formed when the argument list holds exactly the declared
`arguments_number` values (indices beyond it read as undefined via
`arg`). -/
def argsWF (args : List Value) (n : Nat) : Prop :=
  args.length = n

/-- The switch body of the Class A block (lines 109-151): selects the
delegate for Get / Has / DeleteProperty / Set; the `default` case of the C
switch is Set. Returns the delegate result and the call made. -/
def classABranch (f : Facade) (op : ReflectOp) (target : Value) (k : Nat)
    (args : List Value) (n : Nat) : RRes × DelegateCall :=
  match op with
  | .get =>
    let receiver := if n > 2 then arg args 2 else arg args 0
    (f.getWithReceiver target k receiver, .getWithReceiver target k receiver)
  | .has =>
    (f.hasProperty target k, .hasProperty target k)
  | .deleteProperty =>
    (f.deleteProp target k, .deleteProp target k)
  | _ =>
    let receiver := if n > 3 then arg args 3 else arg args 0
    (f.putWithReceiver target k (arg args 2) receiver,
     .putWithReceiver target k (arg args 2) receiver)

/-- The value handed to `ecma_op_to_prop_name` by the Class A block:
`args[1]` when more than one argument was passed, the undefined value
otherwise. -/
def keyArgOf (args : List Value) (n : Nat) : Value :=
  if n > 1 then arg args 1 else Value.undefined

/-- The Class A block (lines 89-155): object check, key coercion, branch,
unconditional key release. -/
def classA (f : Facade) (op : ReflectOp) (args : List Value) (n : Nat) :
    RRes × List Event :=
  if n = 0 ∨ (arg args 0).isObject = false then
    (.error (.typeError .argumentIsNotAnObject), [])
  else
    match f.toPropName (keyArgOf args n) with
    | .error e => (.error e, [.coerceKey (keyArgOf args n)])
    | .ok k =>
      ((classABranch f op (arg args 0) k args n).1,
       [.coerceKey (keyArgOf args n), .keyAcquired k,
        .delegate (classABranch f op (arg args 0) k args n).2, .keyReleased k])

/-- The OwnKeys block (lines 157-169): object check, then
`ecma_builtin_helper_object_get_properties (target, ECMA_LIST_SYMBOLS)`. -/
def ownKeysOp (f : Facade) (args : List Value) (n : Nat) : RRes × List Event :=
  if n = 0 ∨ (arg args 0).isObject = false then
    (.error (.typeError .argumentIsNotAnObject), [])
  else
    (f.getProperties (arg args 0) true, [.delegate (.ownPropertyKeys (arg args 0) true)])

/-- The tail of the Construct block after new-target resolution (lines
195-214): arity check, array-like materialization, delegated construct,
unconditional buffer free. -/
def constructTail (f : Facade) (target newTarget : Value)
    (args : List Value) (n : Nat) : RRes × List Event :=
  if n < 2 then
    (.error (.typeError .constructSecondArgument), [])
  else
    match f.createListFromArrayLike (arg args 1) with
    | .error e => (.error e, [.materialize (arg args 1)])
    | .ok buf =>
      (f.construct target newTarget buf,
       [.materialize (arg args 1), .bufferAlloc buf,
        .delegate (.construct target newTarget buf), .bufferFree buf])

/-- The Construct block (lines 171-215): target constructor check,
new-target default and optional override with its own constructor check,
then `constructTail`. -/
def constructOp (f : Facade) (args : List Value) (n : Nat) : RRes × List Event :=
  if n < 1 ∨ f.isConstructor (arg args 0) = false then
    (.error (.typeError .targetIsNotAConstructor), [])
  else
    if n > 2 then
      if f.isConstructor (arg args 2) = false then
        (.error (.typeError .targetIsNotAConstructor), [])
      else
        constructTail f (arg args 0) (arg args 2) args n
    else
      constructTail f (arg args 0) (arg args 0) args n

/-- The Class D block (lines 217-304): shared object check, then the
per-operation switch; the `default` case of the C switch is
PreventExtensions. -/
def classD (f : Facade) (op : ReflectOp) (args : List Value) (n : Nat) :
    RRes × List Event :=
  if (arg args 0).isObject = false then
    (.error (.typeError .argumentIsNotAnObject), [])
  else
    match op with
    | .getPrototypeOf =>
      (f.getPrototypeOf (arg args 0), [.delegate (.getPrototypeOf (arg args 0))])
    | .setPrototypeOf =>
      match f.setPrototypeOf (arg args 0) (arg args 1) with
      | .error _ =>
        (.ok (.boolean false),
         [.delegate (.setPrototypeOf (arg args 0) (arg args 1)), .exceptionReleased])
      | .ok _ =>
        (.ok (.boolean true),
         [.delegate (.setPrototypeOf (arg args 0) (arg args 1))])
    | .apply =>
      if f.isCallable (arg args 0) = false then
        (.error (.typeError .argumentThisIsNotAFunction), [])
      else
        (f.applyFn (arg args 0) (arg args 1) (arg args 2),
         [.delegate (.applyFn (arg args 0) (arg args 1) (arg args 2))])
    | .defineProperty =>
      match f.toPropName (arg args 1) with
      | .error e => (.error e, [.coerceKey (arg args 1)])
      | .ok k =>
        match f.defineProperty (arg args 0) k (arg args 2) with
        | .error _ =>
          (.ok (.boolean false),
           [.coerceKey (arg args 1), .keyAcquired k,
            .delegate (.defineProperty (arg args 0) k (arg args 2)),
            .keyReleased k, .exceptionReleased])
        | .ok _ =>
          (.ok (.boolean true),
           [.coerceKey (arg args 1), .keyAcquired k,
            .delegate (.defineProperty (arg args 0) k (arg args 2)),
            .keyReleased k])
    | .getOwnPropertyDescriptor =>
      match f.toPropName (arg args 1) with
      | .error e => (.error e, [.coerceKey (arg args 1)])
      | .ok k =>
        (f.getOwnPropertyDescriptor (arg args 0) k,
         [.coerceKey (arg args 1), .keyAcquired k,
          .delegate (.getOwnPropertyDescriptor (arg args 0) k),
          .keyReleased k])
    | .isExtensible =>
      (f.isExtensible (arg args 0), [.delegate (.isExtensible (arg args 0))])
    | _ =>
      (f.preventExtensions (arg args 0), [.delegate (.preventExtensions (arg args 0))])

/-- `ecma_builtin_reflect_dispatch_routine`: the block chain of the C
function — routine ids below Construct (Get/Set/Has/DeleteProperty), then
OwnKeys, then Construct, then the Class D switch. The receiver-context
(`this_arg`) parameter is received and ignored (`JERRY_UNUSED`). -/
def dispatch (f : Facade) (op : ReflectOp) (thisArg : Value)
    (args : List Value) (n : Nat) : RRes × List Event :=
  if routineId op < routineId ReflectOp.construct then
    classA f op args n
  else if op = ReflectOp.ownKeys then
    ownKeysOp f args n
  else if op = ReflectOp.construct then
    constructOp f args n
  else
    classD f op args n

/-- Modelled from the spec: `ecma_builtin_helper_object_get_properties`
(a collaborator outside the analysed source file) returns, for a target
whose own keys in insertion order are `props`, all string keys in
insertion order followed by all symbol keys in insertion order when
symbol listing is requested. -/
def ownPropertyKeysModel (props : List KeyKind) : List KeyKind :=
  props.filter (fun k => k.isStr) ++ props.filter (fun k => k.isSym)

/-- `filter` membership predicates for key events, to state the resource
discipline of one dispatch trace. -/
def isKeyEvent : Event → Bool
  | .keyAcquired _ => true
  | .keyReleased _ => true
  | _ => false

def isBufEvent : Event → Bool
  | .bufferAlloc _ => true
  | .bufferFree _ => true
  | _ => false

/-- A trace respects the resource discipline when its key-handle events are
either none at all or exactly one acquisition followed by exactly one
release of the same handle, and likewise for the argument buffer: at most
one of each resource is ever live, each acquired resource is released
exactly once, and nothing is released that was never acquired. -/
def resourceOk (tr : List Event) : Prop :=
  (tr.filter isKeyEvent = [] ∨
    ∃ k, tr.filter isKeyEvent = [.keyAcquired k, .keyReleased k]) ∧
  (tr.filter isBufEvent = [] ∨
    ∃ vs, tr.filter isBufEvent = [.bufferAlloc vs, .bufferFree vs])

/-- A concrete facade for evaluating the dispatcher on closed inputs:
objects are constructors, only object 7 is callable, key coercion fails on
objects (as real ToPropertyKey can) and succeeds elsewhere, array-like
materialization fails on null, and every object-model delegate succeeds. -/
def FOk : Facade where
  isConstructor := fun v => v.isObject
  isCallable := fun v => v == Value.object 7
  toPropName := fun v =>
    match v with
    | .object i => .error (.pending i)
    | .string s => .ok s
    | _ => .ok 0
  getWithReceiver := fun _ _ _ => .ok (.number 10)
  hasProperty := fun _ _ => .ok (.boolean true)
  deleteProp := fun _ _ => .ok (.boolean true)
  putWithReceiver := fun _ _ _ _ => .ok (.boolean true)
  getProperties := fun _ _ => .ok (.keysArray [.str 0])
  getPrototypeOf := fun _ => .ok .null
  setPrototypeOf := fun _ _ => .ok (.boolean true)
  applyFn := fun _ _ _ => .ok (.number 11)
  defineProperty := fun _ _ _ => .ok (.boolean true)
  getOwnPropertyDescriptor := fun _ _ => .ok .undefined
  isExtensible := fun _ => .ok (.boolean true)
  preventExtensions := fun _ => .ok (.boolean true)
  createListFromArrayLike := fun v =>
    match v with
    | .null => .error (.pending 3)
    | _ => .ok [v]
  construct := fun _ _ _ => .ok (.object 20)

/-- A concrete facade whose object-model delegates all fail with the same
pending exception, for evaluating the error-path behavior on closed
inputs. -/
def FErr : Facade where
  isConstructor := fun _ => true
  isCallable := fun _ => true
  toPropName := fun _ => .ok 2
  getWithReceiver := fun _ _ _ => .error (.pending 9)
  hasProperty := fun _ _ => .error (.pending 9)
  deleteProp := fun _ _ => .error (.pending 9)
  putWithReceiver := fun _ _ _ _ => .error (.pending 9)
  getProperties := fun _ _ => .error (.pending 9)
  getPrototypeOf := fun _ => .error (.pending 9)
  setPrototypeOf := fun _ _ => .error (.pending 9)
  applyFn := fun _ _ _ => .error (.pending 9)
  defineProperty := fun _ _ _ => .error (.pending 9)
  getOwnPropertyDescriptor := fun _ _ => .error (.pending 9)
  isExtensible := fun _ => .error (.pending 9)
  preventExtensions := fun _ => .error (.pending 9)
  createListFromArrayLike := fun _ => .ok []
  construct := fun _ _ _ => .error (.pending 9)

theorem classA_nonobject (f : Facade) (op : ReflectOp) (args : List Value)
    (n : Nat) (h : n = 0 ∨ (arg args 0).isObject = false) :
    classA f op args n = (.error (.typeError .argumentIsNotAnObject), []) := by
  unfold classA
  rw [if_pos h]

theorem ownKeysOp_nonobject (f : Facade) (args : List Value) (n : Nat)
    (h : n = 0 ∨ (arg args 0).isObject = false) :
    ownKeysOp f args n = (.error (.typeError .argumentIsNotAnObject), []) := by
  unfold ownKeysOp
  rw [if_pos h]

theorem classD_nonobject (f : Facade) (op : ReflectOp) (args : List Value)
    (n : Nat) (h : (arg args 0).isObject = false) :
    classD f op args n = (.error (.typeError .argumentIsNotAnObject), []) := by
  unfold classD
  rw [if_pos h]

theorem dispatch_classD (f : Facade) (op : ReflectOp) (t : Value)
    (args : List Value) (n : Nat)
    (h1 : ¬ routineId op < routineId ReflectOp.construct)
    (h2 : op ≠ ReflectOp.ownKeys) (h3 : op ≠ ReflectOp.construct) :
    dispatch f op t args n = classD f op args n := by
  unfold dispatch
  rw [if_neg h1, if_neg h2, if_neg h3]

/-- C9: the dispatcher ignores the receiver-context value: two calls that
differ only in it return the same result and the same event trace. -/
theorem dispatch_independent_of_receiver_context (f : Facade) (op : ReflectOp)
    (t1 t2 : Value) (args : List Value) (n : Nat) :
    dispatch f op t1 args n = dispatch f op t2 args n := rfl

/-- C1: for Construct, validation order is: first an argument count below 1
or a non-constructor args[0] yields the not-a-constructor TypeError; second,
when more than two arguments are passed, a non-constructor args[2] yields
the same TypeError; third, an argument count below 2 yields the
second-argument TypeError. In particular a non-constructor args[0] is
reported even when the count is below 2 or a valid new-target is given. -/
theorem construct_validation_order (f : Facade) (t : Value)
    (args : List Value) (n : Nat) :
    ((n < 1 ∨ f.isConstructor (arg args 0) = false) →
      dispatch f .construct t args n =
        (.error (.typeError .targetIsNotAConstructor), [])) ∧
    (1 ≤ n → f.isConstructor (arg args 0) = true → n > 2 →
      f.isConstructor (arg args 2) = false →
      dispatch f .construct t args n =
        (.error (.typeError .targetIsNotAConstructor), [])) ∧
    (1 ≤ n → f.isConstructor (arg args 0) = true → n < 2 →
      dispatch f .construct t args n =
        (.error (.typeError .constructSecondArgument), [])) := by
  have hd : dispatch f .construct t args n = constructOp f args n := rfl
  refine ⟨?_, ?_, ?_⟩
  · intro h
    rw [hd]
    unfold constructOp
    rw [if_pos h]
  · intro h1 h2 h3 h4
    rw [hd]
    unfold constructOp
    have hcond : ¬(n < 1 ∨ f.isConstructor (arg args 0) = false) := by
      simp [h2]
      omega
    rw [if_neg hcond, if_pos h3, if_pos h4]
  · intro h1 h2 h3
    rw [hd]
    unfold constructOp
    have hcond : ¬(n < 1 ∨ f.isConstructor (arg args 0) = false) := by
      simp [h2]
      omega
    have hn2 : ¬ n > 2 := by omega
    rw [if_neg hcond, if_neg hn2]
    unfold constructTail
    rw [if_pos h3]

theorem construct_validation_order_witness :
    dispatch FOk .construct .undefined [] 0 =
      (.error (.typeError .targetIsNotAConstructor), []) ∧
    dispatch FOk .construct .undefined
        [Value.object 1, Value.undefined, Value.number 0] 3 =
      (.error (.typeError .targetIsNotAConstructor), []) ∧
    dispatch FOk .construct .undefined [Value.object 1] 1 =
      (.error (.typeError .constructSecondArgument), []) :=
  ⟨(construct_validation_order FOk .undefined [] 0).1 (Or.inl (by decide)),
   (construct_validation_order FOk .undefined
      [Value.object 1, Value.undefined, Value.number 0] 3).2.1
     (by decide) (by decide) (by decide) (by decide),
   (construct_validation_order FOk .undefined [Value.object 1] 1).2.2
     (by decide) (by decide) (by decide)⟩

/-- C3: for every operation except Construct and Apply, a call with an
absent or non-object first argument returns the not-an-object TypeError,
with no delegate call and no property-key coercion performed (the trace is
empty). -/
theorem non_object_target (f : Facade) (op : ReflectOp) (t : Value)
    (args : List Value) (n : Nat) (hwf : argsWF args n)
    (hc : op ≠ ReflectOp.construct) (ha : op ≠ ReflectOp.apply)
    (h : n = 0 ∨ (arg args 0).isObject = false) :
    dispatch f op t args n =
      (.error (.typeError .argumentIsNotAnObject), []) := by
  have hobj : (arg args 0).isObject = false := by
    rcases h with h0 | h0
    · have hlen : args.length = 0 := by rw [hwf, h0]
      have hnil : args = [] := List.length_eq_zero.mp hlen
      subst hnil
      rfl
    · exact h0
  cases op with
  | construct => exact absurd rfl hc
  | apply => exact absurd rfl ha
  | get => exact classA_nonobject f _ args n h
  | set => exact classA_nonobject f _ args n h
  | has => exact classA_nonobject f _ args n h
  | deleteProperty => exact classA_nonobject f _ args n h
  | ownKeys => exact ownKeysOp_nonobject f args n h
  | getPrototypeOf =>
    rw [dispatch_classD f _ t args n (by decide) (by decide) (by decide)]
    exact classD_nonobject f _ args n hobj
  | setPrototypeOf =>
    rw [dispatch_classD f _ t args n (by decide) (by decide) (by decide)]
    exact classD_nonobject f _ args n hobj
  | defineProperty =>
    rw [dispatch_classD f _ t args n (by decide) (by decide) (by decide)]
    exact classD_nonobject f _ args n hobj
  | getOwnPropertyDescriptor =>
    rw [dispatch_classD f _ t args n (by decide) (by decide) (by decide)]
    exact classD_nonobject f _ args n hobj
  | isExtensible =>
    rw [dispatch_classD f _ t args n (by decide) (by decide) (by decide)]
    exact classD_nonobject f _ args n hobj
  | preventExtensions =>
    rw [dispatch_classD f _ t args n (by decide) (by decide) (by decide)]
    exact classD_nonobject f _ args n hobj

theorem non_object_target_witness :
    dispatch FOk ReflectOp.get Value.undefined [] 0 =
      (.error (.typeError .argumentIsNotAnObject), []) ∧
    dispatch FOk ReflectOp.setPrototypeOf Value.undefined [Value.number 5] 1 =
      (.error (.typeError .argumentIsNotAnObject), []) :=
  ⟨non_object_target FOk ReflectOp.get Value.undefined [] 0 rfl
     (by decide) (by decide) (Or.inl rfl),
   non_object_target FOk ReflectOp.setPrototypeOf Value.undefined
     [Value.number 5] 1 rfl (by decide) (by decide) (Or.inr rfl)⟩

/-- C5: for Get the delegated call receives args[2] as receiver when more
than two arguments are passed and the target itself otherwise; for Set the
delegated call receives args[2] as the value and args[3] as receiver when
more than three arguments are passed and the target itself otherwise; both
delegate results are returned unchanged, with the key handle released
after the delegate call. -/
theorem get_set_receiver (f : Facade) (t : Value) (args : List Value)
    (n : Nat) (k : Nat) (hn : n ≠ 0) (hobj : (arg args 0).isObject = true)
    (hk : f.toPropName (keyArgOf args n) = .ok k) :
    dispatch f .get t args n =
      (f.getWithReceiver (arg args 0) k
         (if n > 2 then arg args 2 else arg args 0),
       [.coerceKey (keyArgOf args n), .keyAcquired k,
        .delegate (.getWithReceiver (arg args 0) k
          (if n > 2 then arg args 2 else arg args 0)), .keyReleased k]) ∧
    dispatch f .set t args n =
      (f.putWithReceiver (arg args 0) k (arg args 2)
         (if n > 3 then arg args 3 else arg args 0),
       [.coerceKey (keyArgOf args n), .keyAcquired k,
        .delegate (.putWithReceiver (arg args 0) k (arg args 2)
          (if n > 3 then arg args 3 else arg args 0)), .keyReleased k]) := by
  have hcond : ¬(n = 0 ∨ (arg args 0).isObject = false) := by simp [hn, hobj]
  constructor
  · have hd : dispatch f .get t args n = classA f .get args n := rfl
    rw [hd]
    unfold classA
    rw [if_neg hcond, hk]
    rfl
  · have hd : dispatch f .set t args n = classA f .set args n := rfl
    rw [hd]
    unfold classA
    rw [if_neg hcond, hk]
    rfl

theorem get_set_receiver_witness :
    dispatch FOk .get .undefined
        [Value.object 1, Value.string 4, Value.number 9] 3 =
      (.ok (.number 10),
       [.coerceKey (.string 4), .keyAcquired 4,
        .delegate (.getWithReceiver (.object 1) 4 (.number 9)),
        .keyReleased 4]) ∧
    dispatch FOk .set .undefined
        [Value.object 1, Value.string 4, Value.number 9] 3 =
      (.ok (.boolean true),
       [.coerceKey (.string 4), .keyAcquired 4,
        .delegate (.putWithReceiver (.object 1) 4 (.number 9) (.object 1)),
        .keyReleased 4]) :=
  get_set_receiver FOk .undefined
    [Value.object 1, Value.string 4, Value.number 9] 3 4
    (by decide) rfl rfl

/-- C7: for Get, Set, Has, DeleteProperty with an object target the key is
coerced from args[1], or from undefined when at most one argument is
passed, before the operation branch (the coercion is the first trace event
and its argument does not depend on the operation); for these four and for
DefineProperty and GetOwnPropertyDescriptor a coercion failure propagates
the coercion error unchanged, with no delegate call and no key release. -/
theorem key_coercion_first_and_failure (f : Facade) (t : Value)
    (args : List Value) (n : Nat) :
    (∀ op, (op = ReflectOp.get ∨ op = ReflectOp.set ∨ op = ReflectOp.has ∨
        op = ReflectOp.deleteProperty) →
      n ≠ 0 → (arg args 0).isObject = true →
      (dispatch f op t args n).2.head? =
        some (.coerceKey (keyArgOf args n))) ∧
    (∀ op e, (op = ReflectOp.get ∨ op = ReflectOp.set ∨ op = ReflectOp.has ∨
        op = ReflectOp.deleteProperty) →
      n ≠ 0 → (arg args 0).isObject = true →
      f.toPropName (keyArgOf args n) = .error e →
      dispatch f op t args n = (.error e, [.coerceKey (keyArgOf args n)])) ∧
    (∀ op e, (op = ReflectOp.defineProperty ∨
        op = ReflectOp.getOwnPropertyDescriptor) →
      (arg args 0).isObject = true →
      f.toPropName (arg args 1) = .error e →
      dispatch f op t args n = (.error e, [.coerceKey (arg args 1)])) := by
  refine ⟨?_, ?_, ?_⟩
  · intro op hop hn hobj
    have hcond : ¬(n = 0 ∨ (arg args 0).isObject = false) := by
      simp [hn, hobj]
    rcases hop with h | h | h | h <;> subst h <;>
      (show (classA f _ args n).2.head? = _
       unfold classA
       rw [if_neg hcond]
       cases hfk : f.toPropName (keyArgOf args n) <;> rfl)
  · intro op e hop hn hobj hk
    have hcond : ¬(n = 0 ∨ (arg args 0).isObject = false) := by
      simp [hn, hobj]
    rcases hop with h | h | h | h <;> subst h <;>
      (show classA f _ args n = _
       unfold classA
       rw [if_neg hcond, hk])
  · intro op e hop hobj hk
    rcases hop with h | h <;> subst h <;>
      (rw [dispatch_classD f _ t args n (by decide) (by decide) (by decide)]
       simp [classD, hobj, hk])

theorem key_coercion_first_and_failure_witness :
    (dispatch FOk .get .undefined [Value.object 1, Value.object 3] 2).2.head? =
      some (.coerceKey (.object 3)) ∧
    dispatch FOk .get .undefined [Value.object 1, Value.object 3] 2 =
      (.error (.pending 3), [.coerceKey (.object 3)]) ∧
    dispatch FOk .defineProperty .undefined [Value.object 1, Value.object 3] 2 =
      (.error (.pending 3), [.coerceKey (.object 3)]) :=
  ⟨(key_coercion_first_and_failure FOk .undefined
      [Value.object 1, Value.object 3] 2).1 .get (Or.inl rfl) (by decide) rfl,
   (key_coercion_first_and_failure FOk .undefined
      [Value.object 1, Value.object 3] 2).2.1 .get (.pending 3)
     (Or.inl rfl) (by decide) rfl rfl,
   (key_coercion_first_and_failure FOk .undefined
      [Value.object 1, Value.object 3] 2).2.2 .defineProperty (.pending 3)
     (Or.inl rfl) rfl rfl⟩

/-- C6 counterexample: with the concrete facade FOk, Apply on the
non-callable first argument number 0 returns the not-an-object TypeError,
not the not-a-function TypeError the claim requires of every non-callable
first argument: the shared object check of the block fires first. -/
theorem apply_non_callable_counterexample :
    FOk.isCallable (arg [Value.number 0] 0) = false ∧
    dispatch FOk .apply .undefined [Value.number 0] 1 =
      (.error (.typeError .argumentIsNotAnObject), []) ∧
    (dispatch FOk .apply .undefined [Value.number 0] 1).1 ≠
      .error (.typeError .argumentThisIsNotAFunction) := by
  decide

/-- C6 (amended): Apply with an object, non-callable first argument returns
the not-a-function TypeError with an empty trace, so no Apply delegate
call and no materialization of the argument array at args[2]; a non-object
first argument instead returns the not-an-object TypeError, also with an
empty trace. -/
theorem apply_non_callable (f : Facade) (t : Value) (args : List Value)
    (n : Nat) :
    ((arg args 0).isObject = true → f.isCallable (arg args 0) = false →
      dispatch f .apply t args n =
        (.error (.typeError .argumentThisIsNotAFunction), [])) ∧
    ((arg args 0).isObject = false →
      dispatch f .apply t args n =
        (.error (.typeError .argumentIsNotAnObject), [])) := by
  constructor
  · intro hobj hcall
    rw [dispatch_classD f _ t args n (by decide) (by decide) (by decide)]
    simp [classD, hobj, hcall]
  · intro hobj
    rw [dispatch_classD f _ t args n (by decide) (by decide) (by decide)]
    exact classD_nonobject f _ args n hobj

theorem apply_non_callable_witness :
    dispatch FOk .apply .undefined [Value.object 1] 1 =
      (.error (.typeError .argumentThisIsNotAFunction), []) ∧
    dispatch FOk .apply .undefined [Value.boolean true] 1 =
      (.error (.typeError .argumentIsNotAnObject), []) :=
  ⟨(apply_non_callable FOk .undefined [Value.object 1] 1).1 rfl (by decide),
   (apply_non_callable FOk .undefined [Value.boolean true] 1).2 rfl⟩

/-- C10: for Construct with a constructor target and a successfully
materialized argument buffer, the delegated construct call receives
args[2] itself as new-target when more than two arguments are passed with
a constructor-valid args[2], and the target itself when exactly two are
passed; the buffer is allocated before and freed after the delegate
call. -/
theorem construct_new_target (f : Facade) (t : Value) (args : List Value)
    (n : Nat) (buf : List Value)
    (h0 : f.isConstructor (arg args 0) = true)
    (hm : f.createListFromArrayLike (arg args 1) = .ok buf) :
    (n > 2 → f.isConstructor (arg args 2) = true →
      dispatch f .construct t args n =
        (f.construct (arg args 0) (arg args 2) buf,
         [.materialize (arg args 1), .bufferAlloc buf,
          .delegate (.construct (arg args 0) (arg args 2) buf),
          .bufferFree buf])) ∧
    (n = 2 →
      dispatch f .construct t args n =
        (f.construct (arg args 0) (arg args 0) buf,
         [.materialize (arg args 1), .bufferAlloc buf,
          .delegate (.construct (arg args 0) (arg args 0) buf),
          .bufferFree buf])) := by
  have hd : dispatch f .construct t args n = constructOp f args n := rfl
  constructor
  · intro hn h2
    rw [hd]
    unfold constructOp
    have hcond : ¬(n < 1 ∨ f.isConstructor (arg args 0) = false) := by
      simp [h0]
      omega
    rw [if_neg hcond, if_pos hn, if_neg (by simp [h2])]
    unfold constructTail
    rw [if_neg (by omega), hm]
  · intro hn
    subst hn
    rw [hd]
    unfold constructOp
    have hcond : ¬(2 < 1 ∨ f.isConstructor (arg args 0) = false) := by
      simp [h0]
    rw [if_neg hcond, if_neg (by omega)]
    unfold constructTail
    rw [if_neg (by omega), hm]

theorem construct_new_target_witness :
    dispatch FOk .construct .undefined
        [Value.object 1, Value.string 0, Value.object 2] 3 =
      (.ok (.object 20),
       [.materialize (.string 0), .bufferAlloc [Value.string 0],
        .delegate (.construct (.object 1) (.object 2) [Value.string 0]),
        .bufferFree [Value.string 0]]) ∧
    dispatch FOk .construct .undefined [Value.object 1, Value.string 0] 2 =
      (.ok (.object 20),
       [.materialize (.string 0), .bufferAlloc [Value.string 0],
        .delegate (.construct (.object 1) (.object 1) [Value.string 0]),
        .bufferFree [Value.string 0]]) :=
  ⟨(construct_new_target FOk .undefined
      [Value.object 1, Value.string 0, Value.object 2] 3 [Value.string 0]
      rfl rfl).1 (by decide) rfl,
   (construct_new_target FOk .undefined
      [Value.object 1, Value.string 0] 2 [Value.string 0]
      rfl rfl).2 rfl⟩

/-- C2: delegate errors are caught and converted to boolean false, the
pending exception released and the result never the error, for exactly
SetPrototypeOf and DefineProperty, which also return boolean true on
delegate success discarding the delegate value; for every other operation
(Get, Set, Has, DeleteProperty, OwnKeys, GetPrototypeOf, Apply,
GetOwnPropertyDescriptor, IsExtensible, PreventExtensions, Construct) a
delegate error is propagated to the caller unchanged. -/
theorem delegate_error_policy (f : Facade) (t : Value) (args : List Value)
    (n : Nat) :
    ((arg args 0).isObject = true →
      (∀ e, f.setPrototypeOf (arg args 0) (arg args 1) = .error e →
        dispatch f .setPrototypeOf t args n =
          (.ok (.boolean false),
           [.delegate (.setPrototypeOf (arg args 0) (arg args 1)),
            .exceptionReleased])) ∧
      (∀ v, f.setPrototypeOf (arg args 0) (arg args 1) = .ok v →
        dispatch f .setPrototypeOf t args n =
          (.ok (.boolean true),
           [.delegate (.setPrototypeOf (arg args 0) (arg args 1))]))) ∧
    (∀ k, (arg args 0).isObject = true → f.toPropName (arg args 1) = .ok k →
      (∀ e, f.defineProperty (arg args 0) k (arg args 2) = .error e →
        (dispatch f .defineProperty t args n).1 = .ok (.boolean false)) ∧
      (∀ v, f.defineProperty (arg args 0) k (arg args 2) = .ok v →
        (dispatch f .defineProperty t args n).1 = .ok (.boolean true))) ∧
    (∀ k e, n ≠ 0 → (arg args 0).isObject = true →
      f.toPropName (keyArgOf args n) = .ok k →
      ((f.getWithReceiver (arg args 0) k
          (if n > 2 then arg args 2 else arg args 0) = .error e →
        (dispatch f .get t args n).1 = .error e) ∧
       (f.putWithReceiver (arg args 0) k (arg args 2)
          (if n > 3 then arg args 3 else arg args 0) = .error e →
        (dispatch f .set t args n).1 = .error e) ∧
       (f.hasProperty (arg args 0) k = .error e →
        (dispatch f .has t args n).1 = .error e) ∧
       (f.deleteProp (arg args 0) k = .error e →
        (dispatch f .deleteProperty t args n).1 = .error e))) ∧
    (∀ e, n ≠ 0 → (arg args 0).isObject = true →
      f.getProperties (arg args 0) true = .error e →
      (dispatch f .ownKeys t args n).1 = .error e) ∧
    (∀ e, (arg args 0).isObject = true →
      (f.getPrototypeOf (arg args 0) = .error e →
        (dispatch f .getPrototypeOf t args n).1 = .error e) ∧
      (f.isExtensible (arg args 0) = .error e →
        (dispatch f .isExtensible t args n).1 = .error e) ∧
      (f.preventExtensions (arg args 0) = .error e →
        (dispatch f .preventExtensions t args n).1 = .error e) ∧
      (f.isCallable (arg args 0) = true →
        f.applyFn (arg args 0) (arg args 1) (arg args 2) = .error e →
        (dispatch f .apply t args n).1 = .error e)) ∧
    (∀ k e, (arg args 0).isObject = true → f.toPropName (arg args 1) = .ok k →
      f.getOwnPropertyDescriptor (arg args 0) k = .error e →
      (dispatch f .getOwnPropertyDescriptor t args n).1 = .error e) ∧
    (∀ buf e, 2 ≤ n → f.isConstructor (arg args 0) = true →
      (n > 2 → f.isConstructor (arg args 2) = true) →
      f.createListFromArrayLike (arg args 1) = .ok buf →
      f.construct (arg args 0)
        (if n > 2 then arg args 2 else arg args 0) buf = .error e →
      (dispatch f .construct t args n).1 = .error e) := by
  refine ⟨?_, ?_, ?_, ?_, ?_, ?_, ?_⟩
  · intro hobj
    constructor
    · intro e he
      rw [dispatch_classD f _ t args n (by decide) (by decide) (by decide)]
      simp [classD, hobj, he]
    · intro v hv
      rw [dispatch_classD f _ t args n (by decide) (by decide) (by decide)]
      simp [classD, hobj, hv]
  · intro k hobj hk
    constructor
    · intro e he
      rw [dispatch_classD f _ t args n (by decide) (by decide) (by decide)]
      simp [classD, hobj, hk, he]
    · intro v hv
      rw [dispatch_classD f _ t args n (by decide) (by decide) (by decide)]
      simp [classD, hobj, hk, hv]
  · intro k e hn hobj hk
    have hcond : ¬(n = 0 ∨ (arg args 0).isObject = false) := by
      simp [hn, hobj]
    refine ⟨?_, ?_, ?_, ?_⟩ <;> intro he
    · have hd : dispatch f .get t args n = classA f .get args n := rfl
      rw [hd]
      unfold classA
      rw [if_neg hcond, hk]
      simp [classABranch, he]
    · have hd : dispatch f .set t args n = classA f .set args n := rfl
      rw [hd]
      unfold classA
      rw [if_neg hcond, hk]
      simp [classABranch, he]
    · have hd : dispatch f .has t args n = classA f .has args n := rfl
      rw [hd]
      unfold classA
      rw [if_neg hcond, hk]
      simp [classABranch, he]
    · have hd : dispatch f .deleteProperty t args n =
        classA f .deleteProperty args n := rfl
      rw [hd]
      unfold classA
      rw [if_neg hcond, hk]
      simp [classABranch, he]
  · intro e hn hobj he
    have hcond : ¬(n = 0 ∨ (arg args 0).isObject = false) := by
      simp [hn, hobj]
    have hd : dispatch f .ownKeys t args n = ownKeysOp f args n := rfl
    rw [hd]
    unfold ownKeysOp
    rw [if_neg hcond]
    simp [he]
  · intro e hobj
    refine ⟨?_, ?_, ?_, ?_⟩
    · intro he
      rw [dispatch_classD f _ t args n (by decide) (by decide) (by decide)]
      simp [classD, hobj, he]
    · intro he
      rw [dispatch_classD f _ t args n (by decide) (by decide) (by decide)]
      simp [classD, hobj, he]
    · intro he
      rw [dispatch_classD f _ t args n (by decide) (by decide) (by decide)]
      simp [classD, hobj, he]
    · intro hcall he
      rw [dispatch_classD f _ t args n (by decide) (by decide) (by decide)]
      simp [classD, hobj, hcall, he]
  · intro k e hobj hk he
    rw [dispatch_classD f _ t args n (by decide) (by decide) (by decide)]
    simp [classD, hobj, hk, he]
  · intro buf e h2 h0 hnt hm he
    have hd : dispatch f .construct t args n = constructOp f args n := rfl
    rw [hd]
    unfold constructOp
    have hcond : ¬(n < 1 ∨ f.isConstructor (arg args 0) = false) := by
      simp [h0]
      omega
    rw [if_neg hcond]
    by_cases hn2 : n > 2
    · rw [if_pos hn2, if_neg (by simp [hnt hn2])]
      unfold constructTail
      rw [if_neg (by omega), hm]
      rw [if_pos hn2] at he
      simp [he]
    · rw [if_neg hn2]
      unfold constructTail
      rw [if_neg (by omega), hm]
      rw [if_neg hn2] at he
      simp [he]

theorem delegate_error_policy_witness :
    dispatch FErr .setPrototypeOf .undefined [Value.object 1] 1 =
      (.ok (.boolean false),
       [.delegate (.setPrototypeOf (.object 1) .undefined),
        .exceptionReleased]) ∧
    (dispatch FErr .defineProperty .undefined [Value.object 1] 1).1 =
      .ok (.boolean false) ∧
    (dispatch FErr .get .undefined [Value.object 1] 1).1 =
      .error (.pending 9) ∧
    (dispatch FErr .construct .undefined [Value.object 1, Value.null] 2).1 =
      .error (.pending 9) :=
  ⟨((delegate_error_policy FErr .undefined [Value.object 1] 1).1 rfl).1
     (.pending 9) rfl,
   ⟨(((delegate_error_policy FErr .undefined [Value.object 1] 1).2.1 2
        rfl rfl).1 (.pending 9) rfl),
    (((delegate_error_policy FErr .undefined [Value.object 1] 1).2.2.1 2
        (.pending 9) (by decide) rfl rfl).1 rfl),
    ((delegate_error_policy FErr .undefined [Value.object 1, Value.null] 2
       ).2.2.2.2.2.2 [] (.pending 9) (by decide) rfl
       (fun h => absurd h (by decide)) rfl rfl)⟩⟩

theorem resourceOk_classA (f : Facade) (op : ReflectOp) (args : List Value)
    (n : Nat) : resourceOk (classA f op args n).2 := by
  unfold classA
  split
  · exact ⟨Or.inl rfl, Or.inl rfl⟩
  · cases hk : f.toPropName (keyArgOf args n) with
    | ok k => exact ⟨Or.inr ⟨k, rfl⟩, Or.inl rfl⟩
    | error e => exact ⟨Or.inl rfl, Or.inl rfl⟩

theorem resourceOk_ownKeys (f : Facade) (args : List Value) (n : Nat) :
    resourceOk (ownKeysOp f args n).2 := by
  unfold ownKeysOp
  split
  · exact ⟨Or.inl rfl, Or.inl rfl⟩
  · exact ⟨Or.inl rfl, Or.inl rfl⟩

theorem resourceOk_constructTail (f : Facade) (tg ntg : Value)
    (args : List Value) (n : Nat) :
    resourceOk (constructTail f tg ntg args n).2 := by
  unfold constructTail
  split
  · exact ⟨Or.inl rfl, Or.inl rfl⟩
  · cases hm : f.createListFromArrayLike (arg args 1) with
    | ok buf => exact ⟨Or.inl rfl, Or.inr ⟨buf, rfl⟩⟩
    | error e => exact ⟨Or.inl rfl, Or.inl rfl⟩

theorem resourceOk_construct (f : Facade) (args : List Value) (n : Nat) :
    resourceOk (constructOp f args n).2 := by
  unfold constructOp
  split
  · exact ⟨Or.inl rfl, Or.inl rfl⟩
  · split
    · split
      · exact ⟨Or.inl rfl, Or.inl rfl⟩
      · exact resourceOk_constructTail f (arg args 0) (arg args 2) args n
    · exact resourceOk_constructTail f (arg args 0) (arg args 0) args n

theorem resourceOk_classD (f : Facade) (op : ReflectOp) (args : List Value)
    (n : Nat) : resourceOk (classD f op args n).2 := by
  by_cases hobj : (arg args 0).isObject = false
  · rw [classD_nonobject f op args n hobj]
    exact ⟨Or.inl rfl, Or.inl rfl⟩
  · cases op with
    | setPrototypeOf =>
      cases hr : f.setPrototypeOf (arg args 0) (arg args 1) with
      | ok v =>
        refine ⟨Or.inl ?_, Or.inl ?_⟩ <;>
          simp [classD, hobj, hr, isKeyEvent, isBufEvent]
      | error e =>
        refine ⟨Or.inl ?_, Or.inl ?_⟩ <;>
          simp [classD, hobj, hr, isKeyEvent, isBufEvent]
    | apply =>
      by_cases hc : f.isCallable (arg args 0) = false
      · refine ⟨Or.inl ?_, Or.inl ?_⟩ <;>
          simp [classD, hobj, hc, isKeyEvent, isBufEvent]
      · refine ⟨Or.inl ?_, Or.inl ?_⟩ <;>
          simp [classD, hobj, hc, isKeyEvent, isBufEvent]
    | defineProperty =>
      cases hk : f.toPropName (arg args 1) with
      | ok k =>
        cases hr : f.defineProperty (arg args 0) k (arg args 2) with
        | ok v =>
          refine ⟨Or.inr ⟨k, ?_⟩, Or.inl ?_⟩ <;>
            simp [classD, hobj, hk, hr, isKeyEvent, isBufEvent]
        | error e =>
          refine ⟨Or.inr ⟨k, ?_⟩, Or.inl ?_⟩ <;>
            simp [classD, hobj, hk, hr, isKeyEvent, isBufEvent]
      | error e =>
        refine ⟨Or.inl ?_, Or.inl ?_⟩ <;>
          simp [classD, hobj, hk, isKeyEvent, isBufEvent]
    | getOwnPropertyDescriptor =>
      cases hk : f.toPropName (arg args 1) with
      | ok k =>
        refine ⟨Or.inr ⟨k, ?_⟩, Or.inl ?_⟩ <;>
          simp [classD, hobj, hk, isKeyEvent, isBufEvent]
      | error e =>
        refine ⟨Or.inl ?_, Or.inl ?_⟩ <;>
          simp [classD, hobj, hk, isKeyEvent, isBufEvent]
    | _ =>
      refine ⟨Or.inl ?_, Or.inl ?_⟩ <;>
        simp [classD, hobj, isKeyEvent, isBufEvent]

/-- C4: on every call and every exit path, at most one key handle and at
most one argument buffer are ever live in the trace, and each acquired one
is released exactly once, in order: the key-handle events are none or
exactly one acquisition followed by the release of that handle, and the
buffer events are none or exactly one allocation followed by the free of
that buffer. -/
theorem resource_discipline (f : Facade) (op : ReflectOp) (t : Value)
    (args : List Value) (n : Nat) :
    resourceOk (dispatch f op t args n).2 := by
  cases op with
  | get => exact resourceOk_classA f _ args n
  | set => exact resourceOk_classA f _ args n
  | has => exact resourceOk_classA f _ args n
  | deleteProperty => exact resourceOk_classA f _ args n
  | ownKeys => exact resourceOk_ownKeys f args n
  | construct => exact resourceOk_construct f args n
  | getPrototypeOf =>
    rw [dispatch_classD f _ t args n (by decide) (by decide) (by decide)]
    exact resourceOk_classD f _ args n
  | setPrototypeOf =>
    rw [dispatch_classD f _ t args n (by decide) (by decide) (by decide)]
    exact resourceOk_classD f _ args n
  | apply =>
    rw [dispatch_classD f _ t args n (by decide) (by decide) (by decide)]
    exact resourceOk_classD f _ args n
  | defineProperty =>
    rw [dispatch_classD f _ t args n (by decide) (by decide) (by decide)]
    exact resourceOk_classD f _ args n
  | getOwnPropertyDescriptor =>
    rw [dispatch_classD f _ t args n (by decide) (by decide) (by decide)]
    exact resourceOk_classD f _ args n
  | isExtensible =>
    rw [dispatch_classD f _ t args n (by decide) (by decide) (by decide)]
    exact resourceOk_classD f _ args n
  | preventExtensions =>
    rw [dispatch_classD f _ t args n (by decide) (by decide) (by decide)]
    exact resourceOk_classD f _ args n

theorem filter_sym_then_str (props : List KeyKind) :
    (props.filter (fun k => k.isSym)).filter (fun k => k.isStr) = [] := by
  induction props with
  | nil => rfl
  | cons a l ih => cases a <;> simpa [KeyKind.isStr, KeyKind.isSym] using ih

theorem filter_str_then_sym (props : List KeyKind) :
    (props.filter (fun k => k.isStr)).filter (fun k => k.isSym) = [] := by
  induction props with
  | nil => rfl
  | cons a l ih => cases a <;> simpa [KeyKind.isStr, KeyKind.isSym] using ih

theorem filter_str_idem (props : List KeyKind) :
    (props.filter (fun k => k.isStr)).filter (fun k => k.isStr) =
      props.filter (fun k => k.isStr) := by
  simp

theorem filter_sym_idem (props : List KeyKind) :
    (props.filter (fun k => k.isSym)).filter (fun k => k.isSym) =
      props.filter (fun k => k.isSym) := by
  simp

theorem ownPropertyKeysModel_filter_str (props : List KeyKind) :
    (ownPropertyKeysModel props).filter (fun k => k.isStr) =
      props.filter (fun k => k.isStr) := by
  unfold ownPropertyKeysModel
  rw [List.filter_append, filter_str_idem, filter_sym_then_str,
    List.append_nil]

theorem ownPropertyKeysModel_filter_sym (props : List KeyKind) :
    (ownPropertyKeysModel props).filter (fun k => k.isSym) =
      props.filter (fun k => k.isSym) := by
  unfold ownPropertyKeysModel
  rw [List.filter_append, filter_sym_idem, filter_str_then_sym,
    List.nil_append]

/-- C8: OwnKeys with an object target performs no property-key coercion and
returns unchanged the result of the own-property-keys delegate on the
target with symbol listing requested; when that delegate follows the
spec-modelled helper, the returned key array is its string keys followed
by its symbol keys (the array equals its string part appended to its
symbol part), each group in ascending insertion order (each part is the
insertion-order filter of the target keys). -/
theorem ownKeys_order (f : Facade) (t : Value) (args : List Value) (n : Nat)
    (props : List KeyKind) (hn : n ≠ 0)
    (hobj : (arg args 0).isObject = true)
    (hdel : f.getProperties (arg args 0) true =
      .ok (.keysArray (ownPropertyKeysModel props))) :
    dispatch f .ownKeys t args n =
      (.ok (.keysArray (ownPropertyKeysModel props)),
       [.delegate (.ownPropertyKeys (arg args 0) true)]) ∧
    (ownPropertyKeysModel props).filter (fun k => k.isStr) =
      props.filter (fun k => k.isStr) ∧
    (ownPropertyKeysModel props).filter (fun k => k.isSym) =
      props.filter (fun k => k.isSym) ∧
    ownPropertyKeysModel props =
      (ownPropertyKeysModel props).filter (fun k => k.isStr) ++
        (ownPropertyKeysModel props).filter (fun k => k.isSym) := by
  have hcond : ¬(n = 0 ∨ (arg args 0).isObject = false) := by
    simp [hn, hobj]
  refine ⟨?_, ownPropertyKeysModel_filter_str props,
    ownPropertyKeysModel_filter_sym props, ?_⟩
  · have hd : dispatch f .ownKeys t args n = ownKeysOp f args n := rfl
    rw [hd]
    unfold ownKeysOp
    rw [if_neg hcond, hdel]
  · rw [ownPropertyKeysModel_filter_str props,
      ownPropertyKeysModel_filter_sym props]
    rfl

theorem ownKeys_order_witness :
    dispatch FOk .ownKeys .undefined [Value.object 1] 1 =
      (.ok (.keysArray (ownPropertyKeysModel [KeyKind.str 0])),
       [.delegate (.ownPropertyKeys (.object 1) true)]) :=
  (ownKeys_order FOk .undefined [Value.object 1] 1 [KeyKind.str 0]
    (by decide) rfl rfl).1

end Reflect
